import Mathlib

/-!
# Jira Time Machine — Forecast Engine, shallow embedding

Embedding of `src/src/frontend/simulationLogic.js` (`calculateSimulation` and
its helper `addBusinessDays`).  JS numbers are modelled as `ℚ` (all arithmetic
in the engine is exact on the inputs the claims range over), calendar dates as
integer day numbers since the Unix epoch at UTC midnight (1970-01-01 = day 0,
a Thursday), matching the source's forced-UTC, date-only normalisation
(`setUTCHours(0,0,0,0)`).
-/

/-- JS `Date.prototype.getDay` for a UTC-midnight date given as an epoch day
number: 0 = Sunday, …, 6 = Saturday.  Day 0 (1970-01-01) is a Thursday (4). -/
def getDay (d : Int) : Int := (d + 4) % 7

/-- Calendar days from `d` to the next working day (0 when `d` already is
one); measure used to justify termination of the business-day walk. -/
def toWeekdaySteps (d : Int) : Nat :=
  if getDay d = 6 then 2 else if getDay d = 0 then 1 else 0

/-- The body of `addBusinessDays`'s `while (addedDays < daysToAdd)` loop:
advance the date one calendar day, counting the day only when it is neither
Sunday (0) nor Saturday (6). -/
def addBusinessDaysLoop (date addedDays daysToAdd : Int) : Int :=
  if addedDays < daysToAdd then
    if getDay (date + 1) ≠ 0 ∧ getDay (date + 1) ≠ 6 then
      addBusinessDaysLoop (date + 1) (addedDays + 1) daysToAdd
    else
      addBusinessDaysLoop (date + 1) addedDays daysToAdd
  else
    date
termination_by (daysToAdd - addedDays).toNat * 3 + toWeekdaySteps (date + 1)
decreasing_by
  · simp only [toWeekdaySteps, getDay] at *
    split_ifs <;> omega
  · simp only [toWeekdaySteps, getDay] at *
    split_ifs <;> omega

/-- `addBusinessDays(startDate, daysToAdd)` from the source: walk forward one
calendar day at a time, consuming `daysToAdd` working days. -/
def addBusinessDays (startDate daysToAdd : Int) : Int :=
  addBusinessDaysLoop startDate 0 daysToAdd

/-- Epoch day number of a proleptic-Gregorian calendar date (UTC), so that
concrete dates in the theorems below can be written as `daysFromCivil y m d`
instead of raw day numbers. -/
def daysFromCivil (y m d : Int) : Int :=
  let yAdj := if m ≤ 2 then y - 1 else y
  let era := (if 0 ≤ yAdj then yAdj else yAdj - 399) / 400
  let yoe := yAdj - era * 400
  let mp := (m + 9) % 12
  let doy := (153 * mp + 2) / 5 + d - 1
  let doe := yoe * 365 + yoe / 4 - yoe / 100 + doy
  era * 146097 + doe - 719468

/-- A due-date input string, partitioned by how JS `new Date(s)` parses it:
either it denotes a calendar date (UTC, date-only after the source's
`setUTCHours(0,0,0,0)` normalisation), or it is unparsable, in which case
`new Date(s)` yields an Invalid Date whose time value is `NaN`. -/
inductive DateInput where
  | valid (epochDay : Int)
  | malformed
deriving DecidableEq

/-- The `assignee` record of a Jira task; only `accountId` is consumed. -/
structure Assignee where
  accountId : String
deriving DecidableEq

/-- The backlog item fields consumed by `calculateSimulation`:
`task.duedate` (optional date string) and `task.assignee` (optional). -/
structure JiraTask where
  duedate : Option DateInput
  assignee : Option Assignee
deriving DecidableEq

/-- The `tangibleShock` argument: `memberIds` and an `action` string. -/
structure Shock where
  memberIds : List String
  action : String
deriving DecidableEq

/-- The one way an invocation of the source engine can throw: with a
malformed due date, `new Date(...)` is an Invalid Date, every derived number
is `NaN` (comparisons with `NaN` are false, the walk loop adds nothing), and
`formatDate`'s `toISOString()` on the Invalid Date throws
`RangeError: Invalid time value` while the returned object is being built. -/
inductive EngineError where
  | rangeError
deriving DecidableEq

/-- The object returned by `calculateSimulation`, fields in source order.
`simulatedDate` and `originalDate` are the epoch days that `formatDate`
renders as `YYYY-MM-DD`.  `isOverdue` is `Option Bool` because the source
computes it as `originalDueDate && originalDueDate < today`, which is JS
`null` (here `none`) when there is no due date, and a boolean otherwise. -/
structure ForecastResult where
  simulatedDate : Int
  delayDays : Int
  riskDays : Int
  isSick : Bool
  isShocked : Bool
  riskLevel : String
  isOverdue : Option Bool
  originalDate : Option Int
deriving DecidableEq

/-- `velocityModifier = 1 + (load / 100)`. -/
def velocityModifier (load : ℚ) : ℚ := 1 + load / 100

/-- `complexityDays = Math.ceil((complexity / 100) * 5)`. -/
def complexityDays (complexity : ℚ) : Int := ⌈complexity / 100 * 5⌉

/-- `isWorkerSick = (randomSeed * 100) < absenceRisk`. -/
def isWorkerSick (absenceRisk randomSeed : ℚ) : Bool :=
  decide (randomSeed * 100 < absenceRisk)

/-- `sicknessDays = isWorkerSick ? 3 : 0`. -/
def sicknessDays (absenceRisk randomSeed : ℚ) : Int :=
  if isWorkerSick absenceRisk randomSeed then 3 else 0

/-- The nested conditionals computing `isShocked`: a shock is supplied, its
`memberIds` list is non-empty, the task has an assignee whose `accountId` is
in `memberIds`, and the action is `'sick3'`. -/
def isShocked (task : JiraTask) (tangibleShock : Option Shock) : Bool :=
  match tangibleShock with
  | none => false
  | some shock =>
    if 0 < shock.memberIds.length then
      (match task.assignee with
       | some a => shock.memberIds.contains a.accountId
       | none => false)
      && (shock.action == "sick3")
    else false

/-- `shockDays`: 3 exactly when the shock conditions of `isShocked` hold. -/
def shockDays (task : JiraTask) (tangibleShock : Option Shock) : Int :=
  if isShocked task tangibleShock then 3 else 0

/-- The parsed, UTC-midnight-normalised due date of a task (`parseDate` +
`setUTCHours(0,0,0,0)`), for tasks whose due date is absent or well-formed. -/
def dueDay (task : JiraTask) : Option Int :=
  match task.duedate with
  | some (.valid e) => some e
  | _ => none

/-- `remainingDays = originalDueDate ? max(0, round((due - today) / msPerDay)) : 0`.
Both dates are UTC midnights, so the millisecond quotient is an exact integer
number of days and `Math.round` is the identity on it. -/
def remainingDays (today : Int) (originalDueDate : Option Int) : Int :=
  match originalDueDate with
  | some d => max 0 (d - today)
  | none => 0

/-- `simulatedDays = (remainingDays * velocityModifier) + complexityDays +
sicknessDays + shockDays`, the engine's aggregated fractional-day duration. -/
def simulatedDurationDays (today : Int) (task : JiraTask)
    (load complexity absenceRisk randomSeed : ℚ) (tangibleShock : Option Shock) : ℚ :=
  (remainingDays today (dueDay task) : ℚ) * velocityModifier load
    + (complexityDays complexity : ℚ)
    + (sicknessDays absenceRisk randomSeed : ℚ)
    + (shockDays task tangibleShock : ℚ)

/-- `calculateSimulation(task, load, complexity, absenceRisk, randomSeed,
tangibleShock)` from `simulationLogic.js`.  `today` is the value the source
reads from the ambient clock (`new Date()` truncated to UTC midnight), made
an explicit parameter here so that the clock read is visible.  A malformed
due date makes the invocation throw (see `EngineError.rangeError`); otherwise
the `ForecastResult` is returned. -/
def calculateSimulation (today : Int) (task : JiraTask)
    (load complexity absenceRisk randomSeed : ℚ) (tangibleShock : Option Shock) :
    Except EngineError ForecastResult :=
  match task.duedate with
  | some .malformed => .error .rangeError
  | _ =>
    let originalDueDate := dueDay task
    let simulatedDays :=
      simulatedDurationDays today task load complexity absenceRisk randomSeed tangibleShock
    let simulatedDate := addBusinessDays today ⌈simulatedDays⌉
    let riskDays : Int := ⌈simulatedDays - (remainingDays today originalDueDate : ℚ)⌉
    let delayDays : Int :=
      match originalDueDate with
      | some d => max 0 (simulatedDate - d)
      | none => riskDays
    let riskLevel := if riskDays ≥ 15 then "High"
      else if riskDays ≥ 5 then "Medium" else "Low"
    .ok {
      simulatedDate := simulatedDate
      delayDays := delayDays
      riskDays := riskDays
      isSick := isWorkerSick absenceRisk randomSeed
      isShocked := isShocked task tangibleShock
      riskLevel := riskLevel
      isOverdue := originalDueDate.map (fun d => decide (d < today))
      originalDate := originalDueDate }

/-! ## Helper lemmas -/

theorem getDay_nonneg (d : Int) : 0 ≤ getDay d := Int.emod_nonneg _ (by decide)

theorem getDay_lt_seven (d : Int) : getDay d < 7 :=
  Int.emod_lt_of_pos _ (by decide)

theorem toWeekdaySteps_le_two (d : Int) : toWeekdaySteps d ≤ 2 := by
  unfold toWeekdaySteps; split_ifs <;> omega

/-- With the counter already at (or past) its target the loop body never
runs and the start date is returned unchanged. -/
theorem addBusinessDaysLoop_of_not_lt (date addedDays daysToAdd : Int)
    (h : ¬ addedDays < daysToAdd) : addBusinessDaysLoop date addedDays daysToAdd = date := by
  rw [addBusinessDaysLoop, if_neg h]

/-- A requested count of 0 working days leaves the anchor date untouched. -/
theorem addBusinessDays_zero (startDate : Int) : addBusinessDays startDate 0 = startDate :=
  addBusinessDaysLoop_of_not_lt _ _ _ (by omega)

/-- If the loop still has at least one working day to count, the date it
returns is neither a Sunday nor a Saturday. -/
theorem addBusinessDaysLoop_weekday (date addedDays daysToAdd : Int)
    (h : addedDays < daysToAdd) :
    getDay (addBusinessDaysLoop date addedDays daysToAdd) ≠ 0 ∧
    getDay (addBusinessDaysLoop date addedDays daysToAdd) ≠ 6 := by
  induction date, addedDays, daysToAdd using addBusinessDaysLoop.induct with
  | case1 date addedDays daysToAdd hlt hwk ih =>
    rw [addBusinessDaysLoop, if_pos hlt, if_pos hwk]
    by_cases h2 : addedDays + 1 < daysToAdd
    · exact ih h2
    · rw [addBusinessDaysLoop_of_not_lt _ _ _ h2]
      exact hwk
  | case2 date addedDays daysToAdd hlt hwk ih =>
    rw [addBusinessDaysLoop, if_pos hlt, if_neg hwk]
    exact ih hlt
  | case3 date addedDays daysToAdd hlt =>
    exact absurd h hlt

/-- The walk advances at most three calendar days (that is, the loop runs at
most three iterations) per working day still to count, plus the initial skip
to the first working day. -/
theorem addBusinessDaysLoop_le (date addedDays daysToAdd : Int) :
    addBusinessDaysLoop date addedDays daysToAdd ≤
      date + 3 * ((daysToAdd - addedDays).toNat : Int) + toWeekdaySteps (date + 1) := by
  induction date, addedDays, daysToAdd using addBusinessDaysLoop.induct with
  | case1 date addedDays daysToAdd hlt hwk ih =>
    rw [addBusinessDaysLoop, if_pos hlt, if_pos hwk]
    have h1 := toWeekdaySteps_le_two (date + 1 + 1)
    have h2 := toWeekdaySteps_le_two (date + 1)
    omega
  | case2 date addedDays daysToAdd hlt hwk ih =>
    rw [addBusinessDaysLoop, if_pos hlt, if_neg hwk]
    have h1 : toWeekdaySteps (date + 1 + 1) + 1 ≤ toWeekdaySteps (date + 1) := by
      simp only [toWeekdaySteps, getDay] at *
      split_ifs <;> omega
    omega
  | case3 date addedDays daysToAdd hlt =>
    rw [addBusinessDaysLoop_of_not_lt _ _ _ hlt]
    have h2 := toWeekdaySteps_le_two (date + 1)
    omega

/-- Unfolding `calculateSimulation` on a task with a malformed due date:
the invocation throws. -/
theorem calculateSimulation_malformed (today : Int) (assg : Option Assignee)
    (load complexity absenceRisk randomSeed : ℚ) (sh : Option Shock) :
    calculateSimulation today ⟨some .malformed, assg⟩ load complexity absenceRisk randomSeed sh =
      .error .rangeError := rfl

/-- Unfolding `calculateSimulation` on a task without a due date. -/
theorem calculateSimulation_none (today : Int) (assg : Option Assignee)
    (load complexity absenceRisk randomSeed : ℚ) (sh : Option Shock) :
    calculateSimulation today ⟨none, assg⟩ load complexity absenceRisk randomSeed sh =
      .ok {
        simulatedDate := addBusinessDays today
          ⌈simulatedDurationDays today ⟨none, assg⟩ load complexity absenceRisk randomSeed sh⌉
        delayDays := ⌈simulatedDurationDays today ⟨none, assg⟩ load complexity absenceRisk randomSeed sh
          - (remainingDays today none : ℚ)⌉
        riskDays := ⌈simulatedDurationDays today ⟨none, assg⟩ load complexity absenceRisk randomSeed sh
          - (remainingDays today none : ℚ)⌉
        isSick := isWorkerSick absenceRisk randomSeed
        isShocked := isShocked ⟨none, assg⟩ sh
        riskLevel :=
          if ⌈simulatedDurationDays today ⟨none, assg⟩ load complexity absenceRisk randomSeed sh
              - (remainingDays today none : ℚ)⌉ ≥ 15 then "High"
          else if ⌈simulatedDurationDays today ⟨none, assg⟩ load complexity absenceRisk randomSeed sh
              - (remainingDays today none : ℚ)⌉ ≥ 5 then "Medium" else "Low"
        isOverdue := none
        originalDate := none } := rfl

/-- Unfolding `calculateSimulation` on a task with a well-formed due date. -/
theorem calculateSimulation_valid (today d : Int) (assg : Option Assignee)
    (load complexity absenceRisk randomSeed : ℚ) (sh : Option Shock) :
    calculateSimulation today ⟨some (.valid d), assg⟩ load complexity absenceRisk randomSeed sh =
      .ok {
        simulatedDate := addBusinessDays today
          ⌈simulatedDurationDays today ⟨some (.valid d), assg⟩ load complexity absenceRisk randomSeed sh⌉
        delayDays := max 0 (addBusinessDays today
          ⌈simulatedDurationDays today ⟨some (.valid d), assg⟩ load complexity absenceRisk randomSeed sh⌉ - d)
        riskDays := ⌈simulatedDurationDays today ⟨some (.valid d), assg⟩ load complexity absenceRisk randomSeed sh
          - (remainingDays today (some d) : ℚ)⌉
        isSick := isWorkerSick absenceRisk randomSeed
        isShocked := isShocked ⟨some (.valid d), assg⟩ sh
        riskLevel :=
          if ⌈simulatedDurationDays today ⟨some (.valid d), assg⟩ load complexity absenceRisk randomSeed sh
              - (remainingDays today (some d) : ℚ)⌉ ≥ 15 then "High"
          else if ⌈simulatedDurationDays today ⟨some (.valid d), assg⟩ load complexity absenceRisk randomSeed sh
              - (remainingDays today (some d) : ℚ)⌉ ≥ 5 then "Medium" else "Low"
        isOverdue := some (decide (d < today))
        originalDate := some d } := rfl

theorem remainingDays_nonneg (today : Int) (dd : Option Int) :
    0 ≤ remainingDays today dd := by
  cases dd <;> simp [remainingDays]

/-- Whatever its due date, a non-throwing invocation's `simulatedDate` is the
business-day walk from `today` by `⌈simulatedDurationDays⌉`. -/
theorem calculateSimulation_ok_simulatedDate (today : Int) (task : JiraTask)
    (load complexity absenceRisk randomSeed : ℚ) (sh : Option Shock) (r : ForecastResult)
    (h : calculateSimulation today task load complexity absenceRisk randomSeed sh = .ok r) :
    r.simulatedDate = addBusinessDays today
      ⌈simulatedDurationDays today task load complexity absenceRisk randomSeed sh⌉ := by
  obtain ⟨dd, assg⟩ := task
  match dd with
  | some .malformed => rw [calculateSimulation_malformed] at h; exact absurd h (by simp)
  | none => rw [calculateSimulation_none] at h; cases h; rfl
  | some (.valid d) => rw [calculateSimulation_valid] at h; cases h; rfl

/-- Whatever its due date, a non-throwing invocation's `riskDays` is
`⌈simulatedDurationDays - remainingDays⌉`. -/
theorem calculateSimulation_ok_riskDays (today : Int) (task : JiraTask)
    (load complexity absenceRisk randomSeed : ℚ) (sh : Option Shock) (r : ForecastResult)
    (h : calculateSimulation today task load complexity absenceRisk randomSeed sh = .ok r) :
    r.riskDays = ⌈simulatedDurationDays today task load complexity absenceRisk randomSeed sh
      - (remainingDays today (dueDay task) : ℚ)⌉ := by
  obtain ⟨dd, assg⟩ := task
  match dd with
  | some .malformed => rw [calculateSimulation_malformed] at h; exact absurd h (by simp)
  | none => rw [calculateSimulation_none] at h; cases h; rfl
  | some (.valid d) => rw [calculateSimulation_valid] at h; cases h; rfl

/-! ## Claims -/

/-- C10: the business-day walk is total (the walk function below is defined
by well-founded recursion, accepted by the kernel), a requested count of 0
returns the anchor date unchanged, and the number of loop iterations — one
per calendar day advanced, i.e. `addBusinessDays date n - date` — is bounded
by the linear function `3 * n + 2` of the requested working-day count `n`. -/
theorem c10_walk_terminates_bounded (date n : Int) :
    addBusinessDays date 0 = date ∧
    (0 ≤ n → addBusinessDays date n - date ≤ 3 * n + 2) := by
  refine ⟨addBusinessDays_zero date, fun hn => ?_⟩
  have h1 := addBusinessDaysLoop_le date 0 n
  have h2 := toWeekdaySteps_le_two (date + 1)
  unfold addBusinessDays
  omega

/-- C10 witness: the walk of 4 working days from 2025-12-30 returns the
anchor unchanged for a count of 0 and advances at most 14 calendar days. -/
theorem c10_witness :
    addBusinessDays 20452 0 = 20452 ∧
    (0:Int) ≤ 4 ∧ addBusinessDays 20452 4 - 20452 ≤ 3 * 4 + 2 :=
  ⟨(c10_walk_terminates_bounded 20452 4).1, by decide,
    (c10_walk_terminates_bounded 20452 4).2 (by decide)⟩

/-- C3 counterexample: with `today` read off the clock on Saturday
2026-01-03, a task with no due date and all drivers 0 walks 0 working days,
so the returned `simulatedDate` is that same Saturday (`getDay = 6`). -/
theorem c3_counterexample :
    calculateSimulation (daysFromCivil 2026 1 3) ⟨none, none⟩ 0 0 0 (1/2) none =
      .ok ⟨daysFromCivil 2026 1 3, 0, 0, false, false, "Low", none, none⟩ ∧
    getDay (daysFromCivil 2026 1 3) = 6 := by
  have hd : daysFromCivil 2026 1 3 = 20456 := by norm_num [daysFromCivil]
  rw [hd]
  have hD : simulatedDurationDays 20456 ⟨none, none⟩ 0 0 0 (1/2) none = 0 := by
    norm_num [simulatedDurationDays, remainingDays, dueDay, velocityModifier,
      complexityDays, sicknessDays, isWorkerSick, shockDays, isShocked]
  rw [calculateSimulation_none, hD]
  refine ⟨?_, by decide⟩
  norm_num [remainingDays, addBusinessDays_zero, isWorkerSick, isShocked]

/-- C3 amended: `simulatedDate` is never a Saturday or a Sunday whenever the
engine walks at least one working day (`⌈simulatedDurationDays⌉ ≥ 1`); when
the walked count is ≤ 0 it equals the anchor `today` unchanged, which may
itself fall on a weekend. -/
theorem c3_amended (today : Int) (task : JiraTask)
    (load complexity absenceRisk randomSeed : ℚ) (sh : Option Shock) (r : ForecastResult)
    (h : calculateSimulation today task load complexity absenceRisk randomSeed sh = .ok r) :
    (1 ≤ ⌈simulatedDurationDays today task load complexity absenceRisk randomSeed sh⌉ →
      getDay r.simulatedDate ≠ 0 ∧ getDay r.simulatedDate ≠ 6) ∧
    (⌈simulatedDurationDays today task load complexity absenceRisk randomSeed sh⌉ ≤ 0 →
      r.simulatedDate = today) := by
  rw [calculateSimulation_ok_simulatedDate today task load complexity absenceRisk randomSeed sh r h]
  constructor
  · intro h1
    exact addBusinessDaysLoop_weekday today 0 _ (by omega)
  · intro h1
    exact addBusinessDaysLoop_of_not_lt today 0 _ (by omega)

/-- C3 witness: on Tuesday 2025-12-30 with a due date of 2025-12-31 and all
drivers 0, one working day is walked and the result (Wednesday 2025-12-31)
is not a weekend day. -/
theorem c3_witness :
    getDay 20453 ≠ 0 ∧ getDay 20453 ≠ 6 := by
  have hD : simulatedDurationDays 20452 ⟨some (.valid 20453), none⟩ 0 0 0 (1/2) none = 1 := by
    norm_num [simulatedDurationDays, remainingDays, dueDay, velocityModifier,
      complexityDays, sicknessDays, isWorkerSick, shockDays, isShocked]
  have hwalk : addBusinessDays 20452 ⌈(1:ℚ)⌉ = 20453 := by
    norm_num
    simp [addBusinessDays, addBusinessDaysLoop, getDay]
  have hcalc : calculateSimulation 20452 ⟨some (.valid 20453), none⟩ 0 0 0 (1/2) none =
      .ok ⟨20453, 0, 0, false, false, "Low", some false, some 20453⟩ := by
    have hR : remainingDays 20452 (some 20453) = 1 := by simp [remainingDays]
    rw [calculateSimulation_valid, hD, hR, hwalk]
    norm_num [isWorkerSick, isShocked]
  have := (c3_amended 20452 ⟨some (.valid 20453), none⟩ 0 0 0 (1/2) none
    ⟨20453, 0, 0, false, false, "Low", some false, some 20453⟩ hcalc).1 (by rw [hD]; norm_num)
  simpa using this

/-- C6: Scenario B.  With `dueDate = 2025-12-31`, `today = 2025-12-30` (a
Tuesday, `getDay = 2`), `systemComplexity = 50`, other drivers 0 and
seed 0.5: `complexityDays = 3`, `remainingDays = 1`, the total walked
duration is `⌈4⌉ = 4` working days, `simulatedDate = 2026-01-05` (the
intervening weekend is skipped) and `riskDays = 3`. -/
theorem c6_scenario_b :
    getDay (daysFromCivil 2025 12 30) = 2 ∧
    complexityDays 50 = 3 ∧
    remainingDays (daysFromCivil 2025 12 30) (some (daysFromCivil 2025 12 31)) = 1 ∧
    ⌈simulatedDurationDays (daysFromCivil 2025 12 30)
      ⟨some (.valid (daysFromCivil 2025 12 31)), none⟩ 0 50 0 (1/2) none⌉ = 4 ∧
    calculateSimulation (daysFromCivil 2025 12 30)
      ⟨some (.valid (daysFromCivil 2025 12 31)), none⟩ 0 50 0 (1/2) none =
      .ok ⟨daysFromCivil 2026 1 5, 5, 3, false, false, "Low",
        some false, some (daysFromCivil 2025 12 31)⟩ := by
  have h30 : daysFromCivil 2025 12 30 = 20452 := by norm_num [daysFromCivil]
  have h31 : daysFromCivil 2025 12 31 = 20453 := by norm_num [daysFromCivil]
  have h05 : daysFromCivil 2026 1 5 = 20458 := by norm_num [daysFromCivil]
  rw [h30, h31, h05]
  have hc : complexityDays 50 = 3 := by
    rw [complexityDays]; norm_num [Int.ceil_eq_iff]
  have hD : simulatedDurationDays 20452 ⟨some (.valid 20453), none⟩ 0 50 0 (1/2) none = 4 := by
    rw [simulatedDurationDays, hc]
    norm_num [remainingDays, dueDay, velocityModifier, sicknessDays, isWorkerSick,
      shockDays, isShocked]
  have hR : remainingDays 20452 (some 20453) = 1 := by simp [remainingDays]
  refine ⟨by decide, hc, hR, by rw [hD]; norm_num, ?_⟩
  rw [calculateSimulation_valid, hD, hR]
  have hw : addBusinessDays 20452 ⌈(4:ℚ)⌉ = 20458 := by
    norm_num
    simp [addBusinessDays, addBusinessDaysLoop, getDay]
  rw [hw]
  norm_num [isWorkerSick, isShocked, Int.ceil_eq_iff]

/-- C1 counterexample: with `cognitiveLoad = 150`, far outside [0, 100], the
engine raises nothing and returns a `ForecastResult` computed with the
unclamped value (`velocityModifier = 2.5`, so 3 working days are walked from
2025-12-30 and `riskDays = 2`), refuting the claimed `ValidationError`. -/
theorem c1_counterexample :
    calculateSimulation (daysFromCivil 2025 12 30)
      ⟨some (.valid (daysFromCivil 2025 12 31)), none⟩ 150 0 0 (1/2) none =
      .ok ⟨daysFromCivil 2026 1 2, 2, 2, false, false, "Low",
        some false, some (daysFromCivil 2025 12 31)⟩ := by
  have h30 : daysFromCivil 2025 12 30 = 20452 := by norm_num [daysFromCivil]
  have h31 : daysFromCivil 2025 12 31 = 20453 := by norm_num [daysFromCivil]
  have h02 : daysFromCivil 2026 1 2 = 20455 := by norm_num [daysFromCivil]
  rw [h30, h31, h02]
  have hD : simulatedDurationDays 20452 ⟨some (.valid 20453), none⟩ 150 0 0 (1/2) none
      = 5 / 2 := by
    norm_num [simulatedDurationDays, remainingDays, dueDay, velocityModifier,
      complexityDays, sicknessDays, isWorkerSick, shockDays, isShocked]
  have hR : remainingDays 20452 (some 20453) = 1 := by simp [remainingDays]
  rw [calculateSimulation_valid, hD, hR]
  have hceil : ⌈(5:ℚ)/2⌉ = 3 := by norm_num [Int.ceil_eq_iff]
  have hceil2 : ⌈(3:ℚ)/2⌉ = 2 := by norm_num [Int.ceil_eq_iff]
  rw [hceil]
  have hw : addBusinessDays 20452 3 = 20455 := by
    simp [addBusinessDays, addBusinessDaysLoop, getDay]
  rw [hw]
  norm_num [hceil2, isWorkerSick, isShocked]

/-- C1 amended: the engine performs no driver validation — for any driver
values, including values outside [0, 100], an invocation with an absent or
well-formed due date returns a `ForecastResult` computed with the unclamped
values and raises no error.  An invocation with a malformed (unparsable)
due-date string does throw synchronously before any `ForecastResult` is
returned, but the error is a `RangeError` from formatting the Invalid Date
(`toISOString`), not a `ValidationError`. -/
theorem c1_amended (today : Int) (task : JiraTask)
    (load complexity absenceRisk randomSeed : ℚ) (sh : Option Shock) :
    (task.duedate = some .malformed →
      calculateSimulation today task load complexity absenceRisk randomSeed sh =
        .error .rangeError) ∧
    (task.duedate ≠ some .malformed →
      ∃ r, calculateSimulation today task load complexity absenceRisk randomSeed sh = .ok r) := by
  obtain ⟨dd, assg⟩ := task
  match dd with
  | some .malformed =>
    exact ⟨fun _ => calculateSimulation_malformed today assg load complexity absenceRisk
      randomSeed sh, fun h => absurd rfl h⟩
  | none =>
    exact ⟨fun h => by simp at h,
      fun _ => ⟨_, calculateSimulation_none today assg load complexity absenceRisk randomSeed sh⟩⟩
  | some (.valid d) =>
    exact ⟨fun h => by simp at h,
      fun _ => ⟨_, calculateSimulation_valid today d assg load complexity absenceRisk randomSeed sh⟩⟩

/-- C1 witness: a malformed due date throws, and a task without a due date
(driver 150 still unvalidated) returns a result. -/
theorem c1_witness :
    calculateSimulation 20452 ⟨some .malformed, none⟩ 150 0 0 (1/2) none =
      .error .rangeError ∧
    ∃ r, calculateSimulation 20452 ⟨none, none⟩ 150 0 0 (1/2) none = .ok r :=
  ⟨(c1_amended 20452 ⟨some .malformed, none⟩ 150 0 0 (1/2) none).1 rfl,
    (c1_amended 20452 ⟨none, none⟩ 150 0 0 (1/2) none).2 (by simp)⟩

/-- C2 counterexample: the engine reads `today` from the ambient clock
(`new Date()`), so two invocations with identical explicit inputs but clock
dates 2025-12-30 and 2026-01-06 return different `ForecastResult`s (the
second sees the task as overdue and walks from the later date). -/
theorem c2_counterexample :
    calculateSimulation (daysFromCivil 2025 12 30)
      ⟨some (.valid (daysFromCivil 2025 12 31)), none⟩ 0 0 0 (1/2) none ≠
    calculateSimulation (daysFromCivil 2026 1 6)
      ⟨some (.valid (daysFromCivil 2025 12 31)), none⟩ 0 0 0 (1/2) none := by
  have h30 : daysFromCivil 2025 12 30 = 20452 := by norm_num [daysFromCivil]
  have h31 : daysFromCivil 2025 12 31 = 20453 := by norm_num [daysFromCivil]
  have h06 : daysFromCivil 2026 1 6 = 20459 := by norm_num [daysFromCivil]
  rw [h30, h31, h06]
  have hD1 : simulatedDurationDays 20452 ⟨some (.valid 20453), none⟩ 0 0 0 (1/2) none = 1 := by
    norm_num [simulatedDurationDays, remainingDays, dueDay, velocityModifier,
      complexityDays, sicknessDays, isWorkerSick, shockDays, isShocked]
  have hD2 : simulatedDurationDays 20459 ⟨some (.valid 20453), none⟩ 0 0 0 (1/2) none = 0 := by
    norm_num [simulatedDurationDays, remainingDays, dueDay, velocityModifier,
      complexityDays, sicknessDays, isWorkerSick, shockDays, isShocked]
  have hR1 : remainingDays 20452 (some 20453) = 1 := by simp [remainingDays]
  have hR2 : remainingDays 20459 (some 20453) = 0 := by simp [remainingDays]
  have hw1 : addBusinessDays 20452 ⌈(1:ℚ)⌉ = 20453 := by
    norm_num
    simp [addBusinessDays, addBusinessDaysLoop, getDay]
  rw [calculateSimulation_valid, calculateSimulation_valid, hD1, hD2, hR1, hR2, hw1]
  norm_num [addBusinessDays_zero]

/-- C2 amended: the engine is deterministic in its explicit inputs plus the
ambient clock reading: two invocations agreeing on the task, the three
drivers, the injected seed, the shock directive AND the clock-read `today`
yield identical `ForecastResult`s.  (Identical explicit inputs alone do not
suffice: the clock read is ambient, see the counterexample.) -/
theorem c2_amended (t₁ t₂ : Int) (task₁ task₂ : JiraTask)
    (l₁ l₂ c₁ c₂ a₁ a₂ s₁ s₂ : ℚ) (sh₁ sh₂ : Option Shock)
    (ht : t₁ = t₂) (htask : task₁ = task₂) (hl : l₁ = l₂) (hc : c₁ = c₂)
    (ha : a₁ = a₂) (hs : s₁ = s₂) (hsh : sh₁ = sh₂) :
    calculateSimulation t₁ task₁ l₁ c₁ a₁ s₁ sh₁ =
    calculateSimulation t₂ task₂ l₂ c₂ a₂ s₂ sh₂ := by
  subst ht htask hl hc ha hs hsh
  rfl

/-- C2 witness: determinism at a concrete input. -/
theorem c2_witness :
    calculateSimulation 20452 ⟨some (.valid 20453), none⟩ 0 0 0 (1/2) none =
    calculateSimulation 20452 ⟨some (.valid 20453), none⟩ 0 0 0 (1/2) none :=
  c2_amended 20452 20452 ⟨some (.valid 20453), none⟩ ⟨some (.valid 20453), none⟩
    0 0 0 0 0 0 (1/2) (1/2) none none rfl rfl rfl rfl rfl rfl rfl

/-- C4: for a task whose (well-formed) due date is strictly before `today`,
the result has `isOverdue = some true`, the day count anchored at today is
`remainingDays = max(0, dueDate - today) = 0`, and `simulatedDate` is walked
forward from `today` (never from the past due date). -/
theorem c4_overdue_anchored_today (today d : Int) (assg : Option Assignee)
    (load complexity absenceRisk randomSeed : ℚ) (sh : Option Shock) (r : ForecastResult)
    (hd : d < today)
    (h : calculateSimulation today ⟨some (.valid d), assg⟩ load complexity absenceRisk
      randomSeed sh = .ok r) :
    r.isOverdue = some true ∧
    remainingDays today (some d) = max 0 (d - today) ∧
    remainingDays today (some d) = 0 ∧
    r.simulatedDate = addBusinessDays today
      ⌈simulatedDurationDays today ⟨some (.valid d), assg⟩ load complexity absenceRisk
        randomSeed sh⌉ := by
  rw [calculateSimulation_valid] at h
  cases h
  refine ⟨by simp [hd], rfl, ?_, rfl⟩
  simp only [remainingDays]
  omega

/-- C4 witness: the overdue task of the test suite (due 2025-12-20, today
2025-12-30). -/
theorem c4_witness :
    (20442 : Int) < 20452 ∧
    (⟨20452, 0, 0, false, false, "Low", some true, some 20442⟩ :
      ForecastResult).isOverdue = some true ∧
    remainingDays 20452 (some 20442) = 0 := by
  have hD : simulatedDurationDays 20452 ⟨some (.valid 20442), none⟩ 0 0 0 (1/2) none = 0 := by
    norm_num [simulatedDurationDays, remainingDays, dueDay, velocityModifier,
      complexityDays, sicknessDays, isWorkerSick, shockDays, isShocked]
  have hR : remainingDays 20452 (some 20442) = 0 := by simp [remainingDays]
  have hcalc : calculateSimulation 20452 ⟨some (.valid 20442), none⟩ 0 0 0 (1/2) none =
      .ok ⟨20452, 10, 0, false, false, "Low", some true, some 20442⟩ := by
    rw [calculateSimulation_valid, hD, hR]
    norm_num [addBusinessDays_zero, isWorkerSick, isShocked]
  have h4 := c4_overdue_anchored_today 20452 20442 none 0 0 0 (1/2) none
    ⟨20452, 10, 0, false, false, "Low", some true, some 20442⟩ (by decide) hcalc
  exact ⟨by decide, h4.1, h4.2.2.1⟩

/-- C5 counterexample: for a task with no due date and all drivers 0 the
result's `isOverdue` is JS `null` (modelled `none`) — the source computes
`originalDueDate && originalDueDate < today`, which short-circuits to `null`
— not the boolean `false` the claim states. -/
theorem c5_counterexample :
    calculateSimulation (daysFromCivil 2025 12 30) ⟨none, none⟩ 0 0 0 (1/2) none =
      .ok ⟨daysFromCivil 2025 12 30, 0, 0, false, false, "Low", none, none⟩ ∧
    (none : Option Bool) ≠ some false := by
  have h30 : daysFromCivil 2025 12 30 = 20452 := by norm_num [daysFromCivil]
  rw [h30]
  have hD : simulatedDurationDays 20452 ⟨none, none⟩ 0 0 0 (1/2) none = 0 := by
    norm_num [simulatedDurationDays, remainingDays, dueDay, velocityModifier,
      complexityDays, sicknessDays, isWorkerSick, shockDays, isShocked]
  rw [calculateSimulation_none, hD]
  refine ⟨?_, by simp⟩
  norm_num [remainingDays, addBusinessDays_zero, isWorkerSick, isShocked]

/-- C5 amended: for a task with no due date and all drivers 0 (any seed in
the sampler's domain `[0, 1)`, no shock), `remainingDays = 0` and the result
is exactly `simulatedDate = today`, `delayDays = riskDays = 0`,
`originalDate = null` — but `isOverdue` is `null` (`none`), not the boolean
`false`. -/
theorem c5_no_duedate_zero_drivers (today : Int) (assg : Option Assignee)
    (randomSeed : ℚ) (hs : 0 ≤ randomSeed) :
    remainingDays today none = 0 ∧
    calculateSimulation today ⟨none, assg⟩ 0 0 0 randomSeed none =
      .ok ⟨today, 0, 0, false, false, "Low", none, none⟩ := by
  have hsick : isWorkerSick 0 randomSeed = false := by
    simp only [isWorkerSick, decide_eq_false_iff_not, not_lt]
    positivity
  have hD : simulatedDurationDays today ⟨none, assg⟩ 0 0 0 randomSeed none = 0 := by
    norm_num [simulatedDurationDays, remainingDays, dueDay, velocityModifier,
      complexityDays, sicknessDays, hsick, shockDays, isShocked]
  rw [calculateSimulation_none, hD]
  norm_num [remainingDays, addBusinessDays_zero, hsick, isShocked]

/-- C5 witness: instantiated at today = 2025-12-30, seed 0. -/
theorem c5_witness :
    (0:ℚ) ≤ 0 ∧
    calculateSimulation 20452 ⟨none, none⟩ 0 0 0 0 none =
      .ok ⟨20452, 0, 0, false, false, "Low", none, none⟩ :=
  ⟨le_refl 0, (c5_no_duedate_zero_drivers 20452 none 0 (le_refl 0)).2⟩

/-- C7: when a `ShockDirective` is supplied, the shock fires — `isShocked =
true`, `shockDays = 3` — exactly when the task's assignee's `accountId` is
in the directive's `memberIds` and the action is the defined 3-day block
`'sick3'`; otherwise `isShocked = false` and `shockDays = 0`.  Shock and
stochastic absence are independent and additive: when both fire, the
aggregated duration adds both 3-day contributions. -/
theorem c7_shock (today : Int) (task : JiraTask)
    (load complexity absenceRisk randomSeed : ℚ) (shock : Shock) :
    ((∃ acc, task.assignee = some acc ∧ acc.accountId ∈ shock.memberIds) ∧
        shock.action = "sick3" →
      isShocked task (some shock) = true ∧ shockDays task (some shock) = 3) ∧
    (¬ ((∃ acc, task.assignee = some acc ∧ acc.accountId ∈ shock.memberIds) ∧
        shock.action = "sick3") →
      isShocked task (some shock) = false ∧ shockDays task (some shock) = 0) ∧
    (isWorkerSick absenceRisk randomSeed = true → isShocked task (some shock) = true →
      simulatedDurationDays today task load complexity absenceRisk randomSeed (some shock) =
        (remainingDays today (dueDay task) : ℚ) * velocityModifier load
          + (complexityDays complexity : ℚ) + 3 + 3) := by
  have hiff : isShocked task (some shock) = true ↔
      ((∃ acc, task.assignee = some acc ∧ acc.accountId ∈ shock.memberIds) ∧
        shock.action = "sick3") := by
    obtain ⟨dd, assg⟩ := task
    cases assg with
    | none => simp [isShocked]
    | some acc =>
      by_cases hlen : 0 < shock.memberIds.length
      · simp [isShocked, hlen]
      · have hnil : shock.memberIds = [] := by
          cases hm : shock.memberIds with
          | nil => rfl
          | cons x xs => rw [hm] at hlen; simp at hlen
        simp [isShocked, hlen, hnil]
  refine ⟨fun h => ?_, fun h => ?_, fun hsick hshock => ?_⟩
  · have ht := hiff.mpr h
    exact ⟨ht, by simp [shockDays, ht]⟩
  · have hf : isShocked task (some shock) = false := by
      cases hb : isShocked task (some shock) with
      | false => rfl
      | true => exact absurd (hiff.mp hb) h
    exact ⟨hf, by simp [shockDays, hf]⟩
  · simp only [simulatedDurationDays, sicknessDays, shockDays, hsick, hshock, if_true]
    push_cast
    ring

/-- C7 witness: with directive `{memberIds: ["u1"], action: 'sick3'}` the
shock fires for assignee "u1" (3 days) and not for assignee "u2"; with
`absenceRisk = 100` and seed 0.5 both absence and shock contribute 3 days. -/
theorem c7_witness :
    (isShocked ⟨none, some ⟨"u1"⟩⟩ (some ⟨["u1"], "sick3"⟩) = true ∧
      shockDays ⟨none, some ⟨"u1"⟩⟩ (some ⟨["u1"], "sick3"⟩) = 3) ∧
    (isShocked ⟨none, some ⟨"u2"⟩⟩ (some ⟨["u1"], "sick3"⟩) = false ∧
      shockDays ⟨none, some ⟨"u2"⟩⟩ (some ⟨["u1"], "sick3"⟩) = 0) ∧
    simulatedDurationDays 20452 ⟨none, some ⟨"u1"⟩⟩ 0 0 100 (1/2)
        (some ⟨["u1"], "sick3"⟩) =
      (remainingDays 20452 (dueDay ⟨none, some ⟨"u1"⟩⟩) : ℚ) * velocityModifier 0
        + (complexityDays 0 : ℚ) + 3 + 3 := by
  refine ⟨(c7_shock 20452 ⟨none, some ⟨"u1"⟩⟩ 0 0 100 (1/2) ⟨["u1"], "sick3"⟩).1
      ⟨⟨⟨"u1"⟩, rfl, by simp⟩, rfl⟩,
    (c7_shock 20452 ⟨none, some ⟨"u2"⟩⟩ 0 0 100 (1/2) ⟨["u1"], "sick3"⟩).2.1 (by simp),
    (c7_shock 20452 ⟨none, some ⟨"u1"⟩⟩ 0 0 100 (1/2) ⟨["u1"], "sick3"⟩).2.2
      (by norm_num [isWorkerSick])
      ((c7_shock 20452 ⟨none, some ⟨"u1"⟩⟩ 0 0 100 (1/2) ⟨["u1"], "sick3"⟩).1
        ⟨⟨⟨"u1"⟩, rfl, by simp⟩, rfl⟩).1⟩

/-- C8: for a fixed task, fixed other drivers, fixed seed, fixed shock and
fixed today, increasing `cognitiveLoad` never decreases the aggregated
`simulatedDurationDays` (the load only enters through
`remainingDays * (1 + load/100)` with `remainingDays ≥ 0`). -/
theorem c8_monotone_load (today : Int) (task : JiraTask)
    (complexity absenceRisk randomSeed : ℚ) (sh : Option Shock)
    (l₁ l₂ : ℚ) (h : l₁ ≤ l₂) :
    simulatedDurationDays today task l₁ complexity absenceRisk randomSeed sh ≤
    simulatedDurationDays today task l₂ complexity absenceRisk randomSeed sh := by
  have hR : (0:ℚ) ≤ (remainingDays today (dueDay task) : ℚ) := by
    exact_mod_cast remainingDays_nonneg today (dueDay task)
  have hmul : (remainingDays today (dueDay task) : ℚ) * (1 + l₁ / 100) ≤
      (remainingDays today (dueDay task) : ℚ) * (1 + l₂ / 100) := by
    apply mul_le_mul_of_nonneg_left _ hR
    linarith
  simp only [simulatedDurationDays, velocityModifier]
  linarith

/-- C8 witness: load 0 vs load 50 on the Scenario B task. -/
theorem c8_witness :
    (0:ℚ) ≤ 50 ∧
    simulatedDurationDays 20452 ⟨some (.valid 20453), none⟩ 0 50 0 (1/2) none ≤
    simulatedDurationDays 20452 ⟨some (.valid 20453), none⟩ 50 50 0 (1/2) none :=
  ⟨by norm_num,
    c8_monotone_load 20452 ⟨some (.valid 20453), none⟩ 50 0 (1/2) none 0 50 (by norm_num)⟩

/-- C9: for drivers in [0, 100] and any valid item (absent or well-formed
due date, any seed, any shock), the returned `riskDays` equals
`⌈simulatedDurationDays - remainingDays⌉` and is non-negative. -/
theorem c9_riskDays_nonneg (today : Int) (task : JiraTask)
    (load complexity absenceRisk randomSeed : ℚ) (sh : Option Shock) (r : ForecastResult)
    (hl0 : 0 ≤ load) (hl1 : load ≤ 100) (hc0 : 0 ≤ complexity) (hc1 : complexity ≤ 100)
    (ha0 : 0 ≤ absenceRisk) (ha1 : absenceRisk ≤ 100)
    (h : calculateSimulation today task load complexity absenceRisk randomSeed sh = .ok r) :
    r.riskDays = ⌈simulatedDurationDays today task load complexity absenceRisk randomSeed sh
      - (remainingDays today (dueDay task) : ℚ)⌉ ∧
    0 ≤ r.riskDays := by
  have heq := calculateSimulation_ok_riskDays today task load complexity absenceRisk
    randomSeed sh r h
  refine ⟨heq, ?_⟩
  rw [heq]
  apply Int.ceil_nonneg
  have hR : (0:ℚ) ≤ (remainingDays today (dueDay task) : ℚ) := by
    exact_mod_cast remainingDays_nonneg today (dueDay task)
  have hcd : (0:Int) ≤ complexityDays complexity :=
    Int.ceil_nonneg (mul_nonneg (div_nonneg hc0 (by norm_num)) (by norm_num))
  have hcdq : (0:ℚ) ≤ (complexityDays complexity : ℚ) := by exact_mod_cast hcd
  have hsd : (0:Int) ≤ sicknessDays absenceRisk randomSeed := by
    unfold sicknessDays; split_ifs <;> norm_num
  have hsdq : (0:ℚ) ≤ (sicknessDays absenceRisk randomSeed : ℚ) := by exact_mod_cast hsd
  have hshd : (0:Int) ≤ shockDays task sh := by
    unfold shockDays; split_ifs <;> norm_num
  have hshdq : (0:ℚ) ≤ (shockDays task sh : ℚ) := by exact_mod_cast hshd
  have hmul : (0:ℚ) ≤ (remainingDays today (dueDay task) : ℚ) * (load / 100) :=
    mul_nonneg hR (div_nonneg hl0 (by norm_num))
  have hexp : simulatedDurationDays today task load complexity absenceRisk randomSeed sh
      - (remainingDays today (dueDay task) : ℚ) =
      (remainingDays today (dueDay task) : ℚ) * (load / 100)
        + (complexityDays complexity : ℚ)
        + (sicknessDays absenceRisk randomSeed : ℚ)
        + (shockDays task sh : ℚ) := by
    simp only [simulatedDurationDays, velocityModifier]
    ring
  rw [hexp]
  linarith

/-- C9 witness: all drivers 0 on the Scenario A task, where `riskDays = 0`. -/
theorem c9_witness :
    ((0:ℚ) ≤ 0 ∧ (0:ℚ) ≤ 100) ∧
    (⟨20453, 0, 0, false, false, "Low", some false, some 20453⟩ :
      ForecastResult).riskDays =
      ⌈simulatedDurationDays 20452 ⟨some (.valid 20453), none⟩ 0 0 0 (1/2) none
        - (remainingDays 20452 (dueDay ⟨some (.valid 20453), none⟩) : ℚ)⌉ ∧
    0 ≤ (⟨20453, 0, 0, false, false, "Low", some false, some 20453⟩ :
      ForecastResult).riskDays := by
  have hD : simulatedDurationDays 20452 ⟨some (.valid 20453), none⟩ 0 0 0 (1/2) none = 1 := by
    norm_num [simulatedDurationDays, remainingDays, dueDay, velocityModifier,
      complexityDays, sicknessDays, isWorkerSick, shockDays, isShocked]
  have hR : remainingDays 20452 (some 20453) = 1 := by simp [remainingDays]
  have hwalk : addBusinessDays 20452 ⌈(1:ℚ)⌉ = 20453 := by
    norm_num
    simp [addBusinessDays, addBusinessDaysLoop, getDay]
  have hcalc : calculateSimulation 20452 ⟨some (.valid 20453), none⟩ 0 0 0 (1/2) none =
      .ok ⟨20453, 0, 0, false, false, "Low", some false, some 20453⟩ := by
    rw [calculateSimulation_valid, hD, hR, hwalk]
    norm_num [isWorkerSick, isShocked]
  have h9 := c9_riskDays_nonneg 20452 ⟨some (.valid 20453), none⟩ 0 0 0 (1/2) none
    ⟨20453, 0, 0, false, false, "Low", some false, some 20453⟩
    (le_refl 0) (by norm_num) (le_refl 0) (by norm_num) (le_refl 0) (by norm_num) hcalc
  exact ⟨⟨le_refl 0, by norm_num⟩, h9.1, h9.2⟩
